import Mathlib

/-
Verification of the Lexicon reader core: a shallow embedding of the
persistence layer (src/db.ts), the reader controller (src/components/Reader.tsx)
and the plain-text reader variant (src/unnamed/part_000), with theorems about
session logging, bookmark toggling, thumbnail capping, page navigation,
cascade deletion and scroll-derived progress.

Modelling conventions:
- record ids produced by crypto.randomUUID are modelled as caller-supplied
  natural numbers (the Dexie tables key records by id, so ids are unique
  primary keys);
- Date.now() timestamps are caller-supplied naturals (milliseconds);
- JS numbers that can be fractional (progress percentages, scroll geometry)
  are modelled as rationals; integral counters (durations in ms, pages) as
  naturals, page deltas as integers;
- a Dexie table is a list of records; table.add appends, a primary-key
  delete keeps every record whose id differs (equivalent to removing the
  single match, since ids are unique);
- presentation-only record fields that no verified property reads
  (title, author, cover, raw file bytes) are omitted from the structures.
-/

namespace Lexicon

/- Document formats recognised by the reader (src/db.ts addBookToDb derives
   the tag from the file extension; Reader.tsx branches on pdf / epub / other). -/
inductive BookFormat where
  | pdf
  | epub
  | txt
  | md
  deriving DecidableEq, Repr

/- Bookmark type tag (src/types.ts via Reader.tsx handleToggleBookmark). -/
inductive BookmarkType where
  | standard
  | favorite
  deriving DecidableEq, Repr

/- A bookmark record (src/db.ts bookmarks table). -/
structure Bookmark where
  id : Nat
  bookId : Nat
  type : BookmarkType
  timestamp : Nat
  percentage : ℚ
  page : Option Nat
  cfi : Option String
  textSnippet : String
  thumbnail : Option String
  deriving DecidableEq, Repr

/- A highlight record (src/db.ts highlights table); anchoring geometry is
   irrelevant to the claims below and kept abstract as a string. -/
structure Highlight where
  id : Nat
  bookId : Nat
  text : String
  color : String
  note : Option String
  createdAt : Nat
  deriving DecidableEq, Repr

/- A reading session record (src/db.ts readingSessions table). -/
structure ReadingSession where
  id : Nat
  bookId : Nat
  startTime : Nat
  endTime : Nat
  duration : Nat
  deriving DecidableEq, Repr

/- A book record (src/db.ts books table), restricted to the fields the
   verified operations read or write. -/
structure Book where
  id : Nat
  format : BookFormat
  progress : ℚ
  currentPage : Nat
  lastRead : Nat
  deriving DecidableEq, Repr

/- A tab record (src/db.ts tabs table). -/
structure Tab where
  id : Nat
  bookId : Nat
  lastAccessed : Nat
  deriving DecidableEq, Repr

/- The stores touched by deleteBook (src/db.ts LexiconDatabase). -/
structure DbState where
  books : List Book
  highlights : List Highlight
  bookmarks : List Bookmark
  readingSessions : List ReadingSession
  tabs : List Tab
  deriving DecidableEq, Repr

/- src/db.ts addBookmark performs this thumbnail cap inline before the table
   add; it is split out so its field-preservation facts can be stated. -/
def capThumbnail (bookmark : Bookmark) : Bookmark :=
  match bookmark.thumbnail with
  | some t => if 500000 < t.length then { bookmark with thumbnail := none } else bookmark
  | none => bookmark

/- src/db.ts addBookmark: drop an oversized thumbnail, then add the record. -/
def addBookmark (bookmark : Bookmark) (bookmarks : List Bookmark) : List Bookmark :=
  bookmarks ++ [capThumbnail bookmark]

/- src/db.ts deleteBookmark: primary-key delete. -/
def deleteBookmark (id : Nat) (bookmarks : List Bookmark) : List Bookmark :=
  bookmarks.filter (fun b => decide (b.id ≠ id))

/- src/db.ts getBookBookmarks: the bookmarks of one book, most recent first
   (the source query is where bookId equals, reverse, sortBy timestamp). -/
def getBookBookmarks (bookId : Nat) (bookmarks : List Bookmark) : List Bookmark :=
  (bookmarks.filter (fun b => decide (b.bookId = bookId))).insertionSort
    (fun a b => b.timestamp ≤ a.timestamp)

/- src/db.ts logReadingSession: ignore sessions under one minute, else append a
   session ending now. The badge checks in the source read only the books and
   badges stores and never touch readingSessions, so they are not modelled. -/
def logReadingSession (bookId : Nat) (durationMs : Nat) (now : Nat) (newId : Nat)
    (sessions : List ReadingSession) : List ReadingSession :=
  if durationMs < 1000 * 60 then sessions
  else
    sessions ++ [{ id := newId, bookId := bookId, startTime := now - durationMs,
                   endTime := now, duration := durationMs }]

/- Reader.tsx session-tracking effect cleanup (teardown): log the accumulated
   active duration when it exceeds 5000 ms. -/
def sessionCleanup (bookId : Nat) (activeDuration : Nat) (now : Nat) (newId : Nat)
    (sessions : List ReadingSession) : List ReadingSession :=
  if 5000 < activeDuration then logReadingSession bookId activeDuration now newId sessions
  else sessions

/- src/db.ts deleteBook: one read-write transaction deleting the book and every
   dependent highlight, bookmark, reading session and tab; modelled as a single
   atomic pure update of the five stores. -/
def deleteBook (id : Nat) (s : DbState) : DbState :=
  { books := s.books.filter (fun b => decide (b.id ≠ id)),
    highlights := s.highlights.filter (fun h => decide (h.bookId ≠ id)),
    bookmarks := s.bookmarks.filter (fun b => decide (b.bookId ≠ id)),
    readingSessions := s.readingSessions.filter (fun r => decide (r.bookId ≠ id)),
    tabs := s.tabs.filter (fun t => decide (t.bookId ≠ id)) }

/- src/db.ts updateBookProgress (as called without an anchor by the plain-text
   reader): set progress and touch lastRead on the matching book. -/
def updateBookProgress (id : Nat) (progress : ℚ) (now : Nat) (books : List Book) : List Book :=
  books.map (fun b => if b.id = id then { b with progress := progress, lastRead := now } else b)

/- Reader.tsx changePdfPage: clamp navigation to the interval from 1 to
   numPages; an out-of-range target leaves the page unchanged. -/
def changePdfPage (pdfPageNum : Int) (numPages : Int) (delta : Int) : Int :=
  let newPage := pdfPageNum + delta
  if 1 ≤ newPage ∧ newPage ≤ numPages then newPage else pdfPageNum

/- Reader.tsx session and idle tracking, as a discrete trace semantics on a
   one-second grid (the source ticks on a 1000 ms interval). State fields are
   the refs isIdle, lastActivity (seconds) and activeDuration (milliseconds).
   Each second carries one boolean input: whether any user-activity signal
   (mousemove, keydown, click, scroll, touchstart) occurred. A step first runs
   handleUserActivity when a signal occurred, then fires the pending idle
   timeout (scheduled 60 s after the last activity), then runs the interval
   tick, which accumulates 1000 ms only while not idle. -/
structure TrackerState where
  isIdle : Bool
  lastActivity : Nat
  activeDuration : Nat
  deriving DecidableEq, Repr

/- Reader.tsx handleUserActivity: clear the idle flag, record the activity
   time, and reschedule the 60-second idle timeout (the rescheduling is
   represented by the lastActivity field that trackerStep compares against). -/
def handleUserActivity (now : Nat) (st : TrackerState) : TrackerState :=
  { st with isIdle := false, lastActivity := now }

/- One second of the tracker: activity handler, idle-timeout check, tick. -/
def trackerStep (t : Nat) (activity : Bool) (st : TrackerState) : TrackerState :=
  let st1 := if activity then handleUserActivity t st else st
  let st2 := if 60 ≤ t - st1.lastActivity then { st1 with isIdle := true } else st1
  if st2.isIdle then st2 else { st2 with activeDuration := st2.activeDuration + 1000 }

/- Run the tracker over a trace of per-second activity inputs, the first
   input at time t. -/
def runTracker : Nat → List Bool → TrackerState → TrackerState
  | _, [], st => st
  | t, a :: rest, st => runTracker (t + 1) rest (trackerStep t a st)

/- Mount-time state of the refs: not idle, lastActivity = Date.now() (taken as
   time zero), zero accumulated duration. -/
def initialTracker : TrackerState :=
  { isIdle := false, lastActivity := 0, activeDuration := 0 }

/- The trace from the spec scenario: activity signals during the first 30
   seconds, a 90-second gap with no signal, then 40 seconds of activity. -/
def specIdleTrace : List Bool :=
  List.replicate 30 true ++ List.replicate 90 false ++ List.replicate 40 true

/- Reader state consumed by the bookmarking logic of Reader.tsx: the open book
   id and format, its stored progress (read by the plain-text branch), the
   current PDF page and page count, whether an EPUB rendition object exists,
   and the current EPUB location (anchor cfi and fractional progress) when the
   rendition reports one. -/
structure ReaderCtx where
  bookId : Nat
  format : BookFormat
  bookProgress : ℚ
  pdfPageNum : Nat
  numPages : Nat
  epubRendition : Bool
  epubLoc : Option (String × ℚ)
  deriving DecidableEq, Repr

/- Reader.tsx getCurrentBookmark: for the pdf format, the first bookmark of
   the current book whose page equals the current page; null otherwise (the
   early return for a not-yet-loaded live query is the empty list here). -/
def getCurrentBookmark (ctx : ReaderCtx) (bookmarks : List Bookmark) : Option Bookmark :=
  if ctx.format = BookFormat.pdf then
    bookmarks.find? (fun b => decide (b.page = some ctx.pdfPageNum))
  else none

/- The bookmark built by the else-arm of Reader.tsx handleToggleBookmark.
   Environment inputs the component reads from the browser are explicit
   arguments: the fresh id, the Date.now() timestamp, the thumbnail produced
   by downscaling the canvas (none when generation failed or no canvas is
   mounted), and the text extracted from the current EPUB anchor range (none
   when the extraction threw). A zero page count, which the source would turn
   into a non-finite percentage, is division by zero over the rationals and
   yields 0; no verified property reads the percentage field. -/
def newBookmarkFor (ctx : ReaderCtx) (type : BookmarkType) (newId : Nat) (timestamp : Nat)
    (canvasThumbnail : Option String) (epubSnippet : Option String) : Bookmark :=
  match ctx.format with
  | BookFormat.pdf =>
      { id := newId, bookId := ctx.bookId, type := type, timestamp := timestamp,
        percentage := (ctx.pdfPageNum : ℚ) / (ctx.numPages : ℚ) * 100,
        page := some ctx.pdfPageNum, cfi := none,
        textSnippet := "Page " ++ toString ctx.pdfPageNum,
        thumbnail := canvasThumbnail }
  | BookFormat.epub =>
      if ctx.epubRendition then
        match ctx.epubLoc with
        | some loc =>
            { id := newId, bookId := ctx.bookId, type := type, timestamp := timestamp,
              percentage := loc.2 * 100, page := none, cfi := some loc.1,
              textSnippet :=
                match epubSnippet with
                | some sn => sn.take 100 ++ "..."
                | none => "Chapter location " ++ toString (round (loc.2 * 100)) ++ "%",
              thumbnail := none }
        | none =>
            { id := newId, bookId := ctx.bookId, type := type, timestamp := timestamp,
              percentage := 0, page := none, cfi := none,
              textSnippet := "", thumbnail := none }
      else
        { id := newId, bookId := ctx.bookId, type := type, timestamp := timestamp,
          percentage := ctx.bookProgress, page := none, cfi := none,
          textSnippet := "Text selection", thumbnail := none }
  | _ =>
      { id := newId, bookId := ctx.bookId, type := type, timestamp := timestamp,
        percentage := ctx.bookProgress, page := none, cfi := none,
        textSnippet := "Text selection", thumbnail := none }

/- Reader.tsx handleToggleBookmark: delete the bookmark at the current PDF
   page when one exists, else build and persist a bookmark for the current
   location. -/
def handleToggleBookmark (ctx : ReaderCtx) (type : BookmarkType) (newId : Nat) (timestamp : Nat)
    (canvasThumbnail : Option String) (epubSnippet : Option String)
    (bookmarks : List Bookmark) : List Bookmark :=
  match getCurrentBookmark ctx (getBookBookmarks ctx.bookId bookmarks) with
  | some activeBookmark => deleteBookmark activeBookmark.id bookmarks
  | none => addBookmark (newBookmarkFor ctx type newId timestamp canvasThumbnail epubSnippet) bookmarks

/- Number of bookmarks of one book anchored at one page. -/
def countBookmarksAt (bookId : Nat) (pg : Nat) (bookmarks : List Bookmark) : Nat :=
  bookmarks.countP (fun b => decide (b.bookId = bookId ∧ b.page = some pg))

/- The per-page uniqueness invariant for paginated bookmarks. -/
def UniquePerPage (bookmarks : List Bookmark) : Prop :=
  ∀ bid pg, countBookmarksAt bid pg bookmarks ≤ 1

/- A bookmark whose stored thumbnail, if any, is within the 500000 cap. -/
def thumbWithinCap (b : Bookmark) : Bool :=
  match b.thumbnail with
  | some t => decide (t.length ≤ 500000)
  | none => true

/- A thumbnail payload of exactly 500000 characters, sitting on the cap. -/
def capSizedThumb : String := String.mk (List.replicate 500000 'a')

/- A bookmark carrying the cap-sized thumbnail. -/
def capSizedBookmark : Bookmark :=
  { id := 5, bookId := 2, type := BookmarkType.standard, timestamp := 0,
    percentage := 0, page := some 1, cfi := none, textSnippet := "",
    thumbnail := some capSizedThumb }

/- A concrete paginated reader context: book 1 open at page 10 of 20. The
   fields the pdf branches never read are defaults. -/
def pdfCtxEx : ReaderCtx :=
  { bookId := 1, format := BookFormat.pdf, bookProgress := 0, pdfPageNum := 10,
    numPages := 20, epubRendition := false, epubLoc := none }

/- A concrete flowed reader context: book 2 open in the EPUB renderer. -/
def epubCtxEx : ReaderCtx :=
  { bookId := 2, format := BookFormat.epub, bookProgress := 0, pdfPageNum := 1,
    numPages := 0, epubRendition := true, epubLoc := some ("epubcfi", 1 / 2) }

/- The store after toggling a favorite bookmark at page 10 of book 1,
   starting from an empty store. -/
def favoriteThenStd1 : List Bookmark :=
  handleToggleBookmark pdfCtxEx BookmarkType.favorite 200 1000 none none []

/- The store after then toggling a standard bookmark at the same page 10. -/
def favoriteThenStd2 : List Bookmark :=
  handleToggleBookmark pdfCtxEx BookmarkType.standard 201 2000 none none favoriteThenStd1

/- part_000 handleScroll: progress is the viewport scroll offset over the
   total scrollable height as a 0 to 100 percentage, written to the book
   record. The source computes it with IEEE doubles and skips the write when
   the result is NaN; over the rationals that case (zero numerator over zero
   denominator) is folded into skipping the write whenever the scrollable
   height is zero. Every verified property assumes a positive scrollable
   height, where the source and the model agree. -/
def handleScroll (bookId : Nat) (now : Nat) (scrollTop scrollHeight clientHeight : ℚ)
    (books : List Book) : List Book :=
  if scrollHeight - clientHeight = 0 then books
  else updateBookProgress bookId (scrollTop / (scrollHeight - clientHeight) * 100) now books

/- part_000 restore-scroll effect: replay the stored percentage against the
   current scrollable height; with no positive stored progress the window
   stays at the top. -/
def restoreScroll (progress scrollHeight clientHeight : ℚ) : ℚ :=
  if 0 < progress then progress / 100 * (scrollHeight - clientHeight) else 0

/- A concrete plain-text book for the scroll scenario. -/
def txtBookEx : Book :=
  { id := 3, format := BookFormat.txt, progress := 0, currentPage := 1, lastRead := 0 }

/- ------------------------------------------------------------------ -/
/- Theorems.                                                          -/
/- ------------------------------------------------------------------ -/

/- Membership in the book-scoped, recency-sorted bookmark list. -/
theorem mem_getBookBookmarks {x : Bookmark} {bid : Nat} {s : List Bookmark} :
    x ∈ getBookBookmarks bid s ↔ x ∈ s ∧ x.bookId = bid := by
  unfold getBookBookmarks
  rw [(List.perm_insertionSort _ _).mem_iff, List.mem_filter]
  simp

/- Unfolding of the per-page bookmark count being zero. -/
theorem countBookmarksAt_eq_zero {bid pg : Nat} {s : List Bookmark} :
    countBookmarksAt bid pg s = 0 ↔ ∀ x ∈ s, ¬(x.bookId = bid ∧ x.page = some pg) := by
  unfold countBookmarksAt
  rw [List.countP_eq_zero]
  simp

/- For a paginated context the current-bookmark lookup misses exactly when the
   book has no bookmark at the current page. -/
theorem getCurrentBookmark_none_iff {ctx : ReaderCtx} (hfmt : ctx.format = BookFormat.pdf)
    (s : List Bookmark) :
    getCurrentBookmark ctx (getBookBookmarks ctx.bookId s) = none ↔
      countBookmarksAt ctx.bookId ctx.pdfPageNum s = 0 := by
  unfold getCurrentBookmark
  rw [if_pos hfmt, List.find?_eq_none, countBookmarksAt_eq_zero]
  constructor
  · intro h x hx
    rintro ⟨hb, hp⟩
    have := h x (mem_getBookBookmarks.mpr ⟨hx, hb⟩)
    simp only [decide_eq_true_eq] at this
    exact this hp
  · intro h x hx
    simp only [decide_eq_true_eq]
    intro hp
    obtain ⟨hxs, hb⟩ := mem_getBookBookmarks.mp hx
    exact h x hxs ⟨hb, hp⟩

/- A hit of the current-bookmark lookup is a bookmark of the current book at
   the current page. -/
theorem getCurrentBookmark_some {ctx : ReaderCtx} {s : List Bookmark} {b : Bookmark}
    (h : getCurrentBookmark ctx (getBookBookmarks ctx.bookId s) = some b) :
    b ∈ s ∧ b.bookId = ctx.bookId ∧ b.page = some ctx.pdfPageNum := by
  unfold getCurrentBookmark at h
  by_cases hfmt : ctx.format = BookFormat.pdf
  · rw [if_pos hfmt] at h
    have hp := List.find?_some h
    have hm := List.mem_of_find?_eq_some h
    simp only [decide_eq_true_eq] at hp
    obtain ⟨hs, hb⟩ := mem_getBookBookmarks.mp hm
    exact ⟨hs, hb, hp⟩
  · rw [if_neg hfmt] at h
    exact Option.noConfusion h

/- The thumbnail cap does not change the identifying fields of a bookmark. -/
theorem capThumbnail_fields (b : Bookmark) :
    (capThumbnail b).id = b.id ∧ (capThumbnail b).bookId = b.bookId ∧
    (capThumbnail b).page = b.page := by
  cases hb : b.thumbnail with
  | none => simp [capThumbnail, hb]
  | some t => by_cases h : 500000 < t.length <;> simp [capThumbnail, hb, h]

/- After the cap, the stored thumbnail is always within the 500000 limit. -/
theorem thumbWithinCap_capThumbnail (b : Bookmark) : thumbWithinCap (capThumbnail b) = true := by
  cases hb : b.thumbnail with
  | none => simp [capThumbnail, thumbWithinCap, hb]
  | some t =>
      by_cases h : 500000 < t.length
      · simp [capThumbnail, thumbWithinCap, hb, h]
      · simp [capThumbnail, thumbWithinCap, hb, h, Nat.le_of_not_lt h]

/- The identifying fields of the bookmark the toggle would create. -/
theorem newBookmarkFor_fields (ctx : ReaderCtx) (ty : BookmarkType) (nid ts : Nat)
    (th sn : Option String) :
    (newBookmarkFor ctx ty nid ts th sn).id = nid ∧
    (newBookmarkFor ctx ty nid ts th sn).bookId = ctx.bookId ∧
    (newBookmarkFor ctx ty nid ts th sn).page =
      (if ctx.format = BookFormat.pdf then some ctx.pdfPageNum else none) := by
  unfold newBookmarkFor
  cases hf : ctx.format
  case pdf => simp
  case epub =>
      by_cases her : ctx.epubRendition
      · cases hl : ctx.epubLoc <;> simp [her, hl]
      · simp [her]
  case txt => simp
  case md => simp

/- Toggle reduction when a bookmark exists at the current page. -/
theorem toggle_eq_delete {ctx : ReaderCtx} {ty : BookmarkType} {nid ts : Nat}
    {th sn : Option String} {s : List Bookmark} {b : Bookmark}
    (h : getCurrentBookmark ctx (getBookBookmarks ctx.bookId s) = some b) :
    handleToggleBookmark ctx ty nid ts th sn s = deleteBookmark b.id s := by
  unfold handleToggleBookmark
  rw [h]

/- Toggle reduction when no bookmark exists at the current page. -/
theorem toggle_eq_add {ctx : ReaderCtx} {ty : BookmarkType} {nid ts : Nat}
    {th sn : Option String} {s : List Bookmark}
    (h : getCurrentBookmark ctx (getBookBookmarks ctx.bookId s) = none) :
    handleToggleBookmark ctx ty nid ts th sn s =
      addBookmark (newBookmarkFor ctx ty nid ts th sn) s := by
  unfold handleToggleBookmark
  rw [h]

/- Membership after addBookmark. -/
theorem mem_addBookmark {x nb : Bookmark} {s : List Bookmark} :
    x ∈ addBookmark nb s ↔ x ∈ s ∨ x = capThumbnail nb := by
  unfold addBookmark
  simp [List.mem_append]

/- Per-page counts after addBookmark. -/
theorem countBookmarksAt_addBookmark (nb : Bookmark) (s : List Bookmark) (bid pg : Nat) :
    countBookmarksAt bid pg (addBookmark nb s) =
      countBookmarksAt bid pg s +
        (if (capThumbnail nb).bookId = bid ∧ (capThumbnail nb).page = some pg then 1 else 0) := by
  unfold addBookmark countBookmarksAt
  rw [List.countP_append]
  simp [List.countP_cons]

/- Deleting never increases a per-page count. -/
theorem countBookmarksAt_deleteBookmark_le (i : Nat) (s : List Bookmark) (bid pg : Nat) :
    countBookmarksAt bid pg (deleteBookmark i s) ≤ countBookmarksAt bid pg s :=
  (List.filter_sublist s).countP_le _

/-- C1: composing the teardown gate (duration above 5000 ms) with the
logReadingSession floor (ignore durations below 60000 ms) persists a
ReadingSession for the book exactly when the accumulated active duration is at
least 60000 ms, and otherwise leaves the readingSessions store unchanged. -/
theorem claim_C1_session_floor (bookId d now newId : Nat) (sessions : List ReadingSession) :
    sessionCleanup bookId d now newId sessions =
      if 60000 ≤ d then
        sessions ++ [{ id := newId, bookId := bookId, startTime := now - d,
                       endTime := now, duration := d }]
      else sessions := by
  unfold sessionCleanup logReadingSession
  rcases Nat.lt_or_ge d 60000 with hlt | hge
  · have h1 : ¬ 60000 ≤ d := by omega
    rcases Nat.lt_or_ge 5000 d with h2 | h2
    · simp [h1, h2, hlt]
    · have h3 : ¬ 5000 < d := by omega
      simp [h1, h3]
  · have h1 : 5000 < d := by omega
    have h2 : ¬ d < 1000 * 60 := by omega
    simp [h1, h2, hge]

set_option maxRecDepth 100000 in
/-- C2 counterexample: on the trace of 30 s activity, a 90 s gap, then 40 s
activity, the accumulated active duration at teardown is 129000 ms, not
approximately 70000 ms, because the tracker stays in the Active state for the
first 59 seconds of the gap (the idle timeout only fires 60 s after the last
signal); the teardown persists a session of 129000 ms. -/
theorem claim_C2_counterexample :
    (runTracker 1 specIdleTrace initialTracker).activeDuration = 129000 ∧
    sessionCleanup 7 (runTracker 1 specIdleTrace initialTracker).activeDuration 1000000 42 [] =
      [{ id := 42, bookId := 7, startTime := 1000000 - 129000,
         endTime := 1000000, duration := 129000 }] ∧
    70000 + 10000 < 129000 := by
  decide

set_option maxRecDepth 100000 in
/-- C2 amended: the duration counter accumulates only while the tracker is in
the Active state, a step with no activity signal in the Idle state never adds
time, an Active step with no signal switches to Idle exactly when 60 seconds
have passed since the last signal (accumulating otherwise), any signal makes
the state Active immediately, and on the trace 30 s active, 90 s gap, 40 s
active the accumulated duration is 129000 ms, that is roughly 129 s, not
160 s: idle time beyond the 60-second detection window is excluded. -/
theorem claim_C2_idle_accounting :
    (runTracker 1 specIdleTrace initialTracker).activeDuration = 129000 ∧
    (∀ t la d, trackerStep t false { isIdle := true, lastActivity := la, activeDuration := d } =
      { isIdle := true, lastActivity := la, activeDuration := d }) ∧
    (∀ t la d, trackerStep t false { isIdle := false, lastActivity := la, activeDuration := d } =
      if 60 ≤ t - la then { isIdle := true, lastActivity := la, activeDuration := d }
      else { isIdle := false, lastActivity := la, activeDuration := d + 1000 }) ∧
    (∀ t st, trackerStep t true st =
      { isIdle := false, lastActivity := t, activeDuration := st.activeDuration + 1000 }) := by
  refine ⟨by decide, ?_, ?_, ?_⟩
  · intro t la d
    simp [trackerStep]
  · intro t la d
    by_cases h : 60 ≤ t - la <;> simp [trackerStep, h]
  · intro t st
    simp [trackerStep, handleUserActivity]

/-- C3: for a paginated reader context, toggling preserves the invariant that
each (document, page) pair carries at most one bookmark, and when the current
page has no bookmark, toggling twice in succession (any types) returns the
book to zero bookmarks at that page: the second toggle deletes the bookmark
the first created. -/
theorem claim_C3_toggle_pair (ctx : ReaderCtx) (hfmt : ctx.format = BookFormat.pdf)
    (ty1 ty2 : BookmarkType) (id1 ts1 id2 ts2 : Nat) (th1 th2 sn1 sn2 : Option String)
    (s : List Bookmark) :
    (UniquePerPage s → UniquePerPage (handleToggleBookmark ctx ty1 id1 ts1 th1 sn1 s)) ∧
    (countBookmarksAt ctx.bookId ctx.pdfPageNum s = 0 →
      countBookmarksAt ctx.bookId ctx.pdfPageNum
        (handleToggleBookmark ctx ty2 id2 ts2 th2 sn2
          (handleToggleBookmark ctx ty1 id1 ts1 th1 sn1 s)) = 0) := by
  constructor
  · intro hinv
    cases hcb : getCurrentBookmark ctx (getBookBookmarks ctx.bookId s) with
    | some b =>
        rw [toggle_eq_delete hcb]
        intro bid pg
        exact le_trans (countBookmarksAt_deleteBookmark_le b.id s bid pg) (hinv bid pg)
    | none =>
        rw [toggle_eq_add hcb]
        intro bid pg
        rw [countBookmarksAt_addBookmark]
        obtain ⟨hid, hbid, hpage⟩ := capThumbnail_fields (newBookmarkFor ctx ty1 id1 ts1 th1 sn1)
        obtain ⟨hid2, hbid2, hpage2⟩ := newBookmarkFor_fields ctx ty1 id1 ts1 th1 sn1
        by_cases hc : (capThumbnail (newBookmarkFor ctx ty1 id1 ts1 th1 sn1)).bookId = bid ∧
            (capThumbnail (newBookmarkFor ctx ty1 id1 ts1 th1 sn1)).page = some pg
        · obtain ⟨hc1, hc2⟩ := hc
          rw [hbid, hbid2] at hc1
          rw [hpage, hpage2, if_pos hfmt] at hc2
          have hpg : pg = ctx.pdfPageNum := (Option.some_inj.mp hc2).symm
          have h0 : countBookmarksAt ctx.bookId ctx.pdfPageNum s = 0 :=
            (getCurrentBookmark_none_iff hfmt s).mp hcb
          subst hc1 hpg
          rw [h0]
          split_ifs <;> omega
        · rw [if_neg hc]
          simpa using hinv bid pg
  · intro h0
    have h1 : getCurrentBookmark ctx (getBookBookmarks ctx.bookId s) = none :=
      (getCurrentBookmark_none_iff hfmt s).mpr h0
    rw [toggle_eq_add h1]
    cases hcb2 : getCurrentBookmark ctx
        (getBookBookmarks ctx.bookId (addBookmark (newBookmarkFor ctx ty1 id1 ts1 th1 sn1) s)) with
    | none =>
        exfalso
        have hz := (getCurrentBookmark_none_iff hfmt _).mp hcb2
        rw [countBookmarksAt_addBookmark] at hz
        obtain ⟨hid, hbid, hpage⟩ := capThumbnail_fields (newBookmarkFor ctx ty1 id1 ts1 th1 sn1)
        obtain ⟨hid2, hbid2, hpage2⟩ := newBookmarkFor_fields ctx ty1 id1 ts1 th1 sn1
        rw [hbid, hbid2, hpage, hpage2, if_pos hfmt] at hz
        simp at hz
    | some b =>
        rw [toggle_eq_delete hcb2]
        obtain ⟨hbmem, hbbid, hbpage⟩ := getCurrentBookmark_some hcb2
        obtain ⟨hid, hbid, hpage⟩ := capThumbnail_fields (newBookmarkFor ctx ty1 id1 ts1 th1 sn1)
        obtain ⟨hid2, hbid2, hpage2⟩ := newBookmarkFor_fields ctx ty1 id1 ts1 th1 sn1
        have hbeq : b = capThumbnail (newBookmarkFor ctx ty1 id1 ts1 th1 sn1) := by
          rcases mem_addBookmark.mp hbmem with hbs | hbe
          · exact absurd ⟨hbbid, hbpage⟩ ((countBookmarksAt_eq_zero.mp h0) b hbs)
          · exact hbe
        rw [countBookmarksAt_eq_zero]
        intro x hx
        rintro ⟨hxbid, hxpage⟩
        obtain ⟨hxmem, hxne⟩ := List.mem_filter.mp hx
        simp only [decide_eq_true_eq] at hxne
        rcases mem_addBookmark.mp hxmem with hxs | hxe
        · exact (countBookmarksAt_eq_zero.mp h0) x hxs ⟨hxbid, hxpage⟩
        · rw [hxe, ← hbeq] at hxne
          exact hxne rfl

/-- Witness for C3: in an empty store, two successive toggles at page 10 of
book 1 leave zero bookmarks at that page. -/
theorem claim_C3_toggle_pair_witness :
    countBookmarksAt pdfCtxEx.bookId pdfCtxEx.pdfPageNum
      (handleToggleBookmark pdfCtxEx BookmarkType.standard 101 2000 none none
        (handleToggleBookmark pdfCtxEx BookmarkType.standard 100 1000 none none [])) = 0 :=
  (claim_C3_toggle_pair pdfCtxEx rfl BookmarkType.standard BookmarkType.standard
      100 1000 101 2000 none none none none []).2 (by decide)

/-- C4 counterexample: toggling a favorite bookmark at page 10 of book 1 and
then a standard bookmark at the same page does not leave one bookmark at page
10: it leaves zero, so no last-toggle type can win. -/
theorem claim_C4_counterexample :
    countBookmarksAt 1 10 favoriteThenStd2 = 0 ∧ countBookmarksAt 1 10 favoriteThenStd2 ≠ 1 := by
  decide

/-- C4 amended: after toggling a favorite bookmark at page 10 and then a
standard bookmark at the same page, zero bookmarks remain at page 10: the
second toggle deletes the bookmark the first created regardless of either
type, and the type requested by the second toggle is discarded. -/
theorem claim_C4_second_toggle_deletes :
    countBookmarksAt 1 10 favoriteThenStd1 = 1 ∧ favoriteThenStd2 = [] := by
  decide

/-- C5 counterexample: a bookmark whose thumbnail has exactly 500000
characters, at the cap, is persisted unchanged: the source drops a thumbnail
only when its size is strictly greater than 500000, so a thumbnail at the cap
does appear on a persisted bookmark. -/
theorem claim_C5_counterexample :
    addBookmark capSizedBookmark [] = [capSizedBookmark] ∧
    capSizedBookmark.thumbnail = some capSizedThumb ∧ 500000 ≤ capSizedThumb.length := by
  have hlen : capSizedThumb.length = 500000 := by
    show (String.mk (List.replicate 500000 'a')).length = 500000
    rw [String.length]
    exact List.length_replicate 500000 'a'
  refine ⟨?_, rfl, by rw [hlen]⟩
  unfold addBookmark capThumbnail
  rw [show capSizedBookmark.thumbnail = some capSizedThumb from rfl]
  dsimp only
  rw [hlen]
  simp

/-- C5 amended: addBookmark always persists the bookmark (the store grows by
one record), and every record of the resulting store is either an old record
or the added bookmark with any thumbnail strictly larger than 500000 dropped,
so a persisted bookmark never carries a thumbnail above the cap. -/
theorem claim_C5_thumbnail_cap (bookmark : Bookmark) (s : List Bookmark) :
    (addBookmark bookmark s).length = s.length + 1 ∧
    ((addBookmark bookmark s).all fun x =>
      decide (x ∈ s) || (decide (x.id = bookmark.id) && thumbWithinCap x)) = true := by
  constructor
  · unfold addBookmark
    simp
  · rw [List.all_eq_true]
    intro x hx
    rcases mem_addBookmark.mp hx with hxs | hxe
    · simp [hxs]
    · obtain ⟨hid, hbid, hpage⟩ := capThumbnail_fields bookmark
      rw [hxe]
      simp [hid, thumbWithinCap_capThumbnail]

/-- C7: starting from a page p with 1 ≤ p ≤ pageCount, changePdfPage keeps the
current page inside the interval from 1 to pageCount, moves to p + delta when
that target is in range, and is a no-op otherwise. -/
theorem claim_C7_page_clamp (p numPages delta : Int) (h1 : 1 ≤ p) (h2 : p ≤ numPages) :
    (1 ≤ changePdfPage p numPages delta ∧ changePdfPage p numPages delta ≤ numPages) ∧
    changePdfPage p numPages delta =
      if 1 ≤ p + delta ∧ p + delta ≤ numPages then p + delta else p := by
  constructor
  · unfold changePdfPage
    dsimp only
    split_ifs <;> omega
  · rfl

/-- Witness for C7 at page 3 of 10 with an out-of-range delta of 100. -/
theorem claim_C7_page_clamp_witness :
    ((1 : Int) ≤ 3 ∧ (3 : Int) ≤ 10) ∧
    ((1 ≤ changePdfPage 3 10 100 ∧ changePdfPage 3 10 100 ≤ 10) ∧
     changePdfPage 3 10 100 =
       if (1 : Int) ≤ 3 + 100 ∧ (3 : Int) + 100 ≤ 10 then 3 + 100 else 3) :=
  ⟨⟨by decide, by decide⟩, claim_C7_page_clamp 3 10 100 (by decide) (by decide)⟩

/-- C8: deleteBook removes, in one atomic store update, the book itself and
every highlight and bookmark whose bookId references it: afterwards no
highlight or bookmark with that bookId remains. -/
theorem claim_C8_cascade_delete (id : Nat) (s : DbState) :
    ((deleteBook id s).highlights.all fun h => decide (h.bookId ≠ id)) = true ∧
    ((deleteBook id s).bookmarks.all fun b => decide (b.bookId ≠ id)) = true ∧
    ((deleteBook id s).books.all fun b => decide (b.id ≠ id)) = true := by
  refine ⟨?_, ?_, ?_⟩ <;>
    simp [deleteBook, List.all_eq_true, List.mem_filter]

/-- C9: for a plain-text book with positive scrollable height, scrolling to
half the scrollable height records progress exactly 50 on the book, the
recorded progress is in general the scroll offset over the scrollable height
times 100, and resume replays the stored percentage against the current
scrollable height (for the 50 percent scroll, back to half the height). -/
theorem claim_C9_scroll_progress (b : Book) (now : Nat) (st sh ch sh2 ch2 : ℚ)
    (h : ch < sh) :
    (handleScroll b.id now ((sh - ch) / 2) sh ch [b]).map Book.progress = [50] ∧
    handleScroll b.id now st sh ch [b] =
      [{ b with progress := st / (sh - ch) * 100, lastRead := now }] ∧
    restoreScroll 50 sh2 ch2 = 50 / 100 * (sh2 - ch2) ∧
    restoreScroll (((sh - ch) / 2) / (sh - ch) * 100) sh ch = (sh - ch) / 2 := by
  have hne : sh - ch ≠ 0 := sub_ne_zero.mpr (ne_of_gt h)
  have hv : ((sh - ch) / 2) / (sh - ch) * 100 = 50 := by
    field_simp
    ring
  refine ⟨?_, ?_, ?_, ?_⟩
  · unfold handleScroll updateBookProgress
    rw [if_neg hne]
    simp [hv]
  · unfold handleScroll updateBookProgress
    rw [if_neg hne]
    simp
  · unfold restoreScroll
    rw [if_pos (by norm_num : (0 : ℚ) < 50)]
  · rw [hv]
    unfold restoreScroll
    rw [if_pos (by norm_num : (0 : ℚ) < 50)]
    ring

/-- Witness for C9 with scroll height 200, client height 100, and a resume
against scroll height 300. -/
theorem claim_C9_scroll_progress_witness :
    ((100 : ℚ) < 200) ∧
    ((handleScroll txtBookEx.id 5 ((200 - 100) / 2) 200 100 [txtBookEx]).map Book.progress =
        [50] ∧
     handleScroll txtBookEx.id 5 30 200 100 [txtBookEx] =
       [{ txtBookEx with progress := 30 / (200 - 100) * 100, lastRead := 5 }] ∧
     restoreScroll 50 300 0 = 50 / 100 * (300 - 0) ∧
     restoreScroll ((((200 : ℚ) - 100) / 2) / (200 - 100) * 100) 200 100 = (200 - 100) / 2) :=
  ⟨by norm_num, claim_C9_scroll_progress txtBookEx 5 30 200 100 300 0 (by norm_num)⟩

/-- C10: for any non-paginated context (flowed or plain text) the
current-bookmark lookup always returns none, so a toggle never deletes: each
toggle appends one new bookmark, and two successive toggles at the same
location leave two more bookmarks than before. -/
theorem claim_C10_nonpaginated_toggle (ctx : ReaderCtx) (hfmt : ctx.format ≠ BookFormat.pdf)
    (ty1 ty2 : BookmarkType) (id1 ts1 id2 ts2 : Nat) (th1 th2 sn1 sn2 : Option String)
    (s : List Bookmark) :
    getCurrentBookmark ctx (getBookBookmarks ctx.bookId s) = none ∧
    (handleToggleBookmark ctx ty1 id1 ts1 th1 sn1 s).length = s.length + 1 ∧
    (handleToggleBookmark ctx ty2 id2 ts2 th2 sn2
      (handleToggleBookmark ctx ty1 id1 ts1 th1 sn1 s)).length = s.length + 2 := by
  have hnone : ∀ s' : List Bookmark,
      getCurrentBookmark ctx (getBookBookmarks ctx.bookId s') = none := by
    intro s'
    unfold getCurrentBookmark
    rw [if_neg hfmt]
  have hlen : ∀ (ty : BookmarkType) (nid ts : Nat) (th sn : Option String)
      (s' : List Bookmark),
      (handleToggleBookmark ctx ty nid ts th sn s').length = s'.length + 1 := by
    intro ty nid ts th sn s'
    rw [toggle_eq_add (hnone s')]
    unfold addBookmark
    simp
  refine ⟨hnone s, hlen ty1 id1 ts1 th1 sn1 s, ?_⟩
  rw [hlen ty2 id2 ts2 th2 sn2 _, hlen ty1 id1 ts1 th1 sn1 s]

/-- Witness for C10: in the flowed context, two toggles on an empty store
leave two bookmarks. -/
theorem claim_C10_nonpaginated_toggle_witness :
    getCurrentBookmark epubCtxEx (getBookBookmarks epubCtxEx.bookId []) = none ∧
    (handleToggleBookmark epubCtxEx BookmarkType.standard 300 1000 none none []).length =
      ([] : List Bookmark).length + 1 ∧
    (handleToggleBookmark epubCtxEx BookmarkType.standard 301 2000 none none
      (handleToggleBookmark epubCtxEx BookmarkType.standard 300 1000 none none [])).length =
      ([] : List Bookmark).length + 2 :=
  claim_C10_nonpaginated_toggle epubCtxEx (by decide) BookmarkType.standard BookmarkType.standard
    300 1000 301 2000 none none none none []

end Lexicon
